import Mathlib

/-!
Shallow embedding of `lib/VariationUtil/Util/VCFToVariation.py` from the
VariationUtil repository, together with theorems settling the frozen claims
about its specification.

Python exceptions are modelled by `Except PyError`; Python `float` values
arising from version strings are modelled by `ℚ` (all version literals in the
code are short decimal literals, on which `float` comparison agrees with exact
rational comparison).
-/

namespace VCFToVariation

/-- The Python exception classes this module can raise, payload-free. -/
inductive PyError
  | valueError
  | indexError
  | typeError
  | keyError
deriving DecidableEq, Repr

instance {ε α : Type} [DecidableEq ε] [DecidableEq α] : DecidableEq (Except ε α) := fun x y =>
  match x, y with
  | .ok a, .ok b => if h : a = b then .isTrue (by rw [h]) else .isFalse (by simp [h])
  | .error a, .error b => if h : a = b then .isTrue (by rw [h]) else .isFalse (by simp [h])
  | .ok _, .error _ => .isFalse (by simp)
  | .error _, .ok _ => .isFalse (by simp)

/-! ## Python string primitives -/

/-- Characters treated as whitespace by Python `str.strip()` (ASCII fragment). -/
def isPySpace (c : Char) : Bool :=
  c = ' ' || c = '\t' || c = '\n' || c = '\r' || c = '\x0b' || c = '\x0c'

/-- Python `str.strip()`. -/
def pyStrip (s : String) : String :=
  ⟨((s.toList.dropWhile isPySpace).reverse.dropWhile isPySpace).reverse⟩

/-- Python `str.rstrip()`. -/
def pyRstrip (s : String) : String :=
  ⟨(s.toList.reverse.dropWhile isPySpace).reverse⟩

/-- Python `str.strip(c)` for a single character argument. -/
def pyStripChar (s : String) (c : Char) : String :=
  ⟨((s.toList.dropWhile (· = c)).reverse.dropWhile (· = c)).reverse⟩

/-- Python `str.upper()` (ASCII fragment, enough for the identifiers compared here). -/
def pyUpper (s : String) : String :=
  ⟨s.toList.map Char.toUpper⟩

/-- Python slice `s[-n:]`: the last `n` characters (the whole string if shorter). -/
def pyTakeLast (s : String) (n : Nat) : String :=
  ⟨s.toList.drop (s.toList.length - n)⟩

/-- Python slice `s[a:b]` (for `0 ≤ a ≤ b`). -/
def pySlice (s : String) (a b : Nat) : String :=
  ⟨(s.toList.drop a).take (b - a)⟩

/-- Python `sep.join(parts)` for a one-character separator. -/
def joinWith (sep : Char) : List String → String
  | [] => ""
  | [p] => p
  | p :: ps => p ++ ⟨[sep]⟩ ++ joinWith sep ps

/-- Structural split of a character list at every occurrence of `sep`
(the semantics of Python `str.split(sep)` for a one-character separator:
`"" → [""]`, consecutive separators yield empty parts). -/
def splitOnChar (sep : Char) : List Char → List (List Char)
  | [] => [[]]
  | c :: rest =>
    if c = sep then
      [] :: splitOnChar sep rest
    else
      match splitOnChar sep rest with
      | [] => [[c]]
      | g :: gs => (c :: g) :: gs

/-- Python `s.split(sep)` for a one-character separator. -/
def pySplit (s : String) (sep : Char) : List String :=
  (splitOnChar sep s.toList).map List.asString

def startsWithChars : List Char → List Char → Bool
  | [], _ => true
  | _ :: _, [] => false
  | p :: ps, c :: cs => p = c && startsWithChars ps cs

/-- Python `s.startswith(pre)`. -/
def pyStartswith (s pre : String) : Bool :=
  startsWithChars pre.toList s.toList

/-- The numeric value of a digit string (most significant first). -/
def natVal (cs : List Char) : Nat :=
  cs.foldl (fun a c => 10 * a + (c.toNat - 48)) 0

def allDigits (cs : List Char) : Bool :=
  cs.all Char.isDigit

/-- Digit decomposition of an unsigned decimal literal: integer-part value,
fraction-part value and fraction-part digit count; `none` when the text is not
such a literal (after stripping surrounding whitespace). -/
def pyFloatParts (s : String) : Option (Nat × Nat × Nat) :=
  let t := (pyStrip s).toList
  if t.contains '.' then
    let ip := t.takeWhile (· ≠ '.')
    let fp := (t.dropWhile (· ≠ '.')).drop 1
    if allDigits ip && allDigits fp && (!ip.isEmpty || !fp.isEmpty) then
      some (natVal ip, natVal fp, fp.length)
    else
      none
  else
    if allDigits t && !t.isEmpty then some (natVal t, 0, 0) else none

/-- Model of Python `float()` restricted to the unsigned decimal literals this
module feeds it (optional surrounding whitespace, digits with at most one dot,
at least one digit; no sign/exponent forms occur in the code's inputs).
Returns `ValueError` exactly when the text is not such a literal. -/
def pyFloat (s : String) : Except PyError ℚ :=
  match pyFloatParts s with
  | none => .error .valueError
  | some (i, f, n) => .ok ((i : ℚ) + (f : ℚ) / (10 : ℚ) ^ n)

theorem pyFloat_eq_ok (s : String) (i f n : Nat) (h : pyFloatParts s = some (i, f, n)) :
    pyFloat s = .ok ((i : ℚ) + (f : ℚ) / (10 : ℚ) ^ n) := by
  rw [pyFloat, h]

theorem pyFloat_eq_err (s : String) (h : pyFloatParts s = none) :
    pyFloat s = .error .valueError := by
  rw [pyFloat, h]

/-! ## Python values and dictionaries (only what the claims need) -/

/-- A Python dict with string keys and string values (the `params` mapping). -/
def PyDict : Type := List (String × String)

def dictContains (d : PyDict) (k : String) : Bool :=
  d.any (fun p => p.1 = k)

/-- Python `d[k]`: raises `KeyError` when the key is missing. -/
def dictGet (d : PyDict) (k : String) : Except PyError String :=
  match d.find? (fun p => p.1 = k) with
  | some p => .ok p.2
  | none => .error .keyError

/-- A Python value as used in the message expression of `validate_vcf`'s
parameter guard: either a string or the params dict. -/
inductive PyVal
  | str (s : String)
  | dict (d : List (String × String))

/-- Python `+` on such values: string concatenation on two strings, and a
`TypeError` on every mixed combination (`str + dict` is unsupported). -/
def pyAdd : PyVal → PyVal → Except PyError PyVal
  | .str a, .str b => .ok (.str (a ++ b))
  | _, _ => .error .typeError

/-! ## VersionDetector: `_get_vcf_version` (lines 125-137) -/

/-- `_get_vcf_version`, as a function of the first line read from the file
(decompression is transparent and not modelled):

    tokens = line.split('=')
    if not (tokens[0].startswith('##fileformat')): raise ValueError(...)
    vcf_version = float(tokens[1][-4:].rstrip())
    return vcf_version

`tokens[1]` raises `IndexError` when the line contains no `=`. -/
def get_vcf_version (line : String) : Except PyError ℚ :=
  let tokens := pySplit line '='
  if !(pyStartswith (tokens.headD "") "##fileformat") then
    .error .valueError
  else
    match tokens.get? 1 with
    | none => .error .indexError
    | some t1 => pyFloat (pyRstrip (pyTakeLast t1 4))

/-- Model of PyVCF's generic metadata parse of a `##key=value` header line:
the stripped line loses `##`, and the value is everything after the first `=`
(`line[2:].split('=', 1)[1]`). `_parse_vcf_data` reads
`reader.metadata['fileformat']` which is this value for the first line. -/
def fileformatMetaValue (line : String) : String :=
  let s : String := ⟨(pyStrip line).toList.drop 2⟩
  joinWith '=' ((pySplit s '=').drop 1)

/-- Line 60 of `_parse_vcf_data`:
`version = float(reader.metadata['fileformat'][4:6])` — the two characters at
indices 4 and 5 of the metadata value. -/
def parse_vcf_data_version (fileformat : String) : Except PyError ℚ :=
  pyFloat (pySlice fileformat 4 6)

example : pyFloat "4.2" = .ok (21/5) := by
  rw [pyFloat_eq_ok _ 4 2 1 (by decide)]; norm_num
example : pyFloat "4." = .ok 4 := by
  rw [pyFloat_eq_ok _ 4 0 0 (by decide)]; norm_num
example : pyFloat "VCFv" = .error .valueError := by
  rw [pyFloat_eq_err _ (by decide)]
example : parse_vcf_data_version "VCFv4.2" = .ok 4 := by
  rw [parse_vcf_data_version, pyFloat_eq_ok _ 4 0 0 (by decide)]; norm_num
theorem get_vcf_version_eq_parse (line t1 : String)
    (h1 : pyStartswith ((pySplit line '=').headD "") "##fileformat" = true)
    (h2 : (pySplit line '=').get? 1 = some t1) :
    get_vcf_version line = pyFloat (pyRstrip (pyTakeLast t1 4)) := by
  simp only [get_vcf_version, h1, h2, Bool.not_true, Bool.false_eq_true, if_false]

theorem get_vcf_version_eq_valueError {line : String}
    (h1 : pyStartswith ((pySplit line '=').headD "") "##fileformat" = false) :
    get_vcf_version line = .error .valueError := by
  simp only [get_vcf_version, h1, Bool.not_false, if_true]

theorem get_vcf_version_eq_indexError {line : String}
    (h1 : pyStartswith ((pySplit line '=').headD "") "##fileformat" = true)
    (h2 : (pySplit line '=').get? 1 = none) :
    get_vcf_version line = .error .indexError := by
  simp only [get_vcf_version, h1, h2, Bool.not_true, Bool.false_eq_true, if_false]

example : get_vcf_version "##fileformat=VCFv4.2\n" = .ok (21/5) := by
  rw [get_vcf_version_eq_parse _ "VCFv4.2\n" (by decide) (by decide),
      pyFloat_eq_ok _ 4 2 1 (by decide)]
  norm_num
example : fileformatMetaValue "##fileformat=VCFv4.2\n" = "VCFv4.2" := by decide

/-! ## VCFParser / ContigAggregator: `_parse_vcf_data` (lines 54-94) -/

/-- The fields of a PyVCF record used by `_parse_vcf_data`.  `FILTER` is
`none` for a `.` entry and `some fs` for a (possibly empty) list of failed
filters; Python `not record.FILTER` is true for `None` and `[]`. -/
structure VcfRecord where
  CHROM : String
  FILTER : Option (List String)
  affected_start : Int
  affected_end : Int
deriving DecidableEq, Repr

/-- Python truthiness test `not record.FILTER`. -/
def filterFalsy : Option (List String) → Bool
  | none => true
  | some [] => true
  | some (_ :: _) => false

/-- One entry of the `contigs` mapping built by `_parse_vcf_data`. -/
structure ContigInfo where
  contig_id : String
  totalvariants : Nat
  passvariants : Nat
  length : Int
deriving DecidableEq, Repr

/-- The loop state of `_parse_vcf_data`: the `chromosomes` list, the `contigs`
dict (an insertion-ordered association list, as Python dicts are), and the
running `totalvars` counter. -/
structure ParseState where
  chromosomes : List String
  contigs : List (String × ContigInfo)
  totalvars : Nat
deriving DecidableEq, Repr

/-- `record.CHROM in contigs.keys()`. -/
def hasKey (l : List (String × ContigInfo)) (c : String) : Bool :=
  l.any (fun p => p.1 = c)

def contigKeys (l : List (String × ContigInfo)) : List String :=
  l.map Prod.fst

def sumTotals (l : List (String × ContigInfo)) : Nat :=
  (l.map (fun p => p.2.totalvariants)).sum

/-- The `else` branch of the loop (lines 81-83): increment `totalvariants` of
the record's contig, and `passvariants` when the FILTER field is falsy. -/
def updContig (pass : Bool) (ci : ContigInfo) : ContigInfo :=
  { ci with
    totalvariants := ci.totalvariants + 1,
    passvariants := if pass then ci.passvariants + 1 else ci.passvariants }

/-- The body of the `for record in reader` loop (lines 66-83). -/
def processRecord (st : ParseState) (r : VcfRecord) : ParseState :=
  let totalvars := st.totalvars + 1
  let chromosomes :=
    if st.chromosomes.contains r.CHROM then st.chromosomes
    else st.chromosomes ++ [r.CHROM]
  let contigs :=
    if !(hasKey st.contigs r.CHROM) then
      let passvar : Nat := if filterFalsy r.FILTER then 1 else 0
      st.contigs ++ [(r.CHROM,
        { contig_id := r.CHROM
          totalvariants := 1
          passvariants := passvar
          length := r.affected_end - r.affected_start })]
    else
      st.contigs.map (fun p =>
        if p.1 = r.CHROM then (p.1, updContig (filterFalsy r.FILTER) p.2) else p)
  { chromosomes := chromosomes, contigs := contigs, totalvars := totalvars }

/-- The aggregation loop of `_parse_vcf_data` over the record stream, from the
empty initial state.  The state after the loop has consumed `k` records is
`vcfState (records.take k)`. -/
def vcfState (records : List VcfRecord) : ParseState :=
  records.foldl processRecord { chromosomes := [], contigs := [], totalvars := 0 }

/-- The `vcf_info` dict returned by `_parse_vcf_data` (lines 85-94). -/
structure VcfInfo where
  version : ℚ
  contigs : List (String × ContigInfo)
  total_variants : Nat
  genotype_ids : List String
  chromosome_ids : List String
  file_ref : String
deriving DecidableEq, Repr

/-- `_parse_vcf_data`, as a function of the `##fileformat` metadata value, the
header sample names, the record stream and the staged file path (the staging
and PyVCF record parsing themselves are external I/O). -/
def parse_vcf_data (fileformat : String) (genotypes : List String)
    (records : List VcfRecord) (vcf_filepath : String) : Except PyError VcfInfo :=
  match parse_vcf_data_version fileformat with
  | .error e => .error e
  | .ok version =>
    let st := vcfState records
    .ok { version := version
          contigs := st.contigs
          total_variants := st.totalvars
          genotype_ids := genotypes
          chromosome_ids := st.chromosomes
          file_ref := vcf_filepath }

/-- The number of records of the stream anchored to contig `c`. -/
def countTotal (c : String) (rs : List VcfRecord) : Nat :=
  (rs.filter (fun r => r.CHROM = c)).length

/-- The number of records of the stream anchored to contig `c` whose FILTER
field is empty/unset. -/
def countPass (c : String) (rs : List VcfRecord) : Nat :=
  (rs.filter (fun r => r.CHROM = c && filterFalsy r.FILTER)).length

/-! ## ValidatorDispatcher: `validate_vcf` (lines 139-180) -/

/-- The parameter guard at the top of `validate_vcf` (lines 140-143).  Raising
either `ValueError` first evaluates its message expression
`'...: \n\n' + params`, a `str + dict` addition. -/
def validate_vcf_param_guard (params : PyDict) : Except PyError Unit :=
  if !(dictContains params "genome_ref") then
    (pyAdd (.str "Genome reference not in input parameters: \n\n")
        (.dict params)).bind fun _ => .error .valueError
  else if !(dictContains params "vcf_staging_file_path") then
    (pyAdd (.str "VCF staging file path not in input parameters: \n\n")
        (.dict params)).bind fun _ => .error .valueError
  else
    .ok ()

/-- The validator dispatch of `validate_vcf` (lines 162-178): the command line
to invoke, or the `ValueError` raised before any validator runs. -/
def validate_vcf_dispatch (vcf_version : ℚ) (vcf_filepath : String) :
    Except PyError (List String) :=
  if vcf_version ≥ 41/10 then
    .ok ["vcf_validator_linux", "-i", vcf_filepath, "-l", "error"]
  else if vcf_version ≥ 4 then
    .ok ["vcf-validator", vcf_filepath]
  else
    .error .valueError

/-! ## ValidatorOutputParser: `validate_vcf` (lines 188-246) -/

/-- The retention filter over the captured combined stdout/stderr (lines
189-195): a line is appended to `validator_output` exactly when its stripped
form starts with `[info]`; all other captured lines are discarded. -/
def retainedLines (raw : List String) : List String :=
  raw.filter (fun l => pyStartswith (pyStrip l) "[info]")

/-- What the output interpretation of `validate_vcf` does: which report is
written and whether the run raises. -/
inductive VOutcome
  /-- validator-A shape succeeded: the path extracted from the retained output
  is returned, no fallback report is written. -/
  | okReportA (path : String)
  /-- the synthesized `vcftools used to validate...` success report is written
  to the default path and that path is returned. -/
  | okSynth
  /-- `ValueError(path + ' does not exist!')` in the validator-A shape. -/
  | errMissingReport (path : String)
  /-- `ValueError('\n'.join(validator_output))`; `wrote` records whether the
  retained lines were first written to the fallback report file. -/
  | errWithLines (lines : List String) (wrote : Bool)
deriving DecidableEq, Repr

/-- The `except IndexError` handler (lines 230-242), also the structure of the
`else` branch at lines 216-227: write the retained lines and re-raise when any
were retained, otherwise synthesize the v4.0 success report. -/
def writeLinesOrSynthesize (vo : List String) : VOutcome :=
  if vo.isEmpty then .okSynth else .errWithLines vo true

/-- The output interpretation of `validate_vcf` (lines 199-242) as a function
of the captured lines; `fileExists` abstracts `os.path.exists`.  Subscripts
`validator_output[i]` that raise `IndexError` route to the handler
(`writeLinesOrSynthesize`); note the handler sees only the retained lines, the
discarded non-`[info]` output is gone. -/
def interpretValidatorOutput (fileExists : String → Bool) (raw : List String) :
    VOutcome :=
  let vo := retainedLines raw
  match vo.get? 0 with
  | none => writeLinesOrSynthesize vo
  | some l0 =>
    if pySlice l0 0 6 = "[info]" then
      match vo.get? 1 with
      | none => writeLinesOrSynthesize vo
      | some l1 =>
        match (pySplit l1 ' ').get? 6 with
        | none => writeLinesOrSynthesize vo
        | some tok =>
          let validation_output_filename := pyStripChar tok '\n'
          match vo.get? 2 with
          | none => writeLinesOrSynthesize vo
          | some l2 =>
            let file_output_chk :=
              pyStripChar (joinWith ' ' ((pySplit l2 ' ').drop 9)) '\n'
            if !(fileExists validation_output_filename) then
              .errMissingReport validation_output_filename
            else if file_output_chk ≠ "isvalid" then
              .errWithLines vo false
            else
              .okReportA validation_output_filename
    else
      writeLinesOrSynthesize vo

/-! ## CrossValidator: `_validate_vcf_to_sample` (96-109),
`_chk_if_vcf_ids_in_assembly` (111-123), `_validate_assembly_ids` (291-318),
`_validate_sample_ids` (320-338) -/

/-- `x.upper().strip()`. -/
def pyNorm (x : String) : String :=
  pyStrip (pyUpper x)

/-- The result of either check: Python `True`, or the non-empty list of ids
not found (the caller distinguishes them with `isinstance(..., list)`). -/
inductive CheckResult
  | allFound
  | notFound (ids : List String)
deriving DecidableEq, Repr

/-- The `genos_not_found` list built by `_validate_vcf_to_sample`: both sides
are upper-cased and stripped before the membership test, and the loop appends
the (normalised) unmatched genotypes in order. -/
def genosNotFound (vcf_genotypes sample_ids : List String) : List String :=
  let vgenotypes := vcf_genotypes.map pyNorm
  let sids := sample_ids.map pyNorm
  vgenotypes.filter (fun geno => !(sids.contains geno))

/-- `_validate_vcf_to_sample` (lines 96-109). -/
def validate_vcf_to_sample (vcf_genotypes sample_ids : List String) : CheckResult :=
  if genosNotFound vcf_genotypes sample_ids = [] then .allFound
  else .notFound (genosNotFound vcf_genotypes sample_ids)

/-- The `chromos_not_in_assembly` list built by `_chk_if_vcf_ids_in_assembly`:
a plain membership test, with no case folding and no stripping. -/
def chromosNotInAssembly (vcf_chromosomes assembly_chromosomes : List String) :
    List String :=
  vcf_chromosomes.filter (fun chromo => !(assembly_chromosomes.contains chromo))

/-- `_chk_if_vcf_ids_in_assembly` (lines 111-123). -/
def chk_if_vcf_ids_in_assembly (vcf_chromosomes assembly_chromosomes : List String) :
    CheckResult :=
  if chromosNotInAssembly vcf_chromosomes assembly_chromosomes = [] then .allFound
  else .notFound (chromosNotInAssembly vcf_chromosomes assembly_chromosomes)

/-- `_validate_assembly_ids` (lines 291-318) as a function of the contig ids
fetched from the workspace and the parsed chromosome ids.  When the check
returns a list the ids are only printed (the `raise ValueError` is commented
out, line 315) and the assembly id set is returned unconditionally. -/
def validate_assembly_ids (vcf_chromosomes assembly_chromosomes : List String) :
    Except PyError (List String) :=
  match chk_if_vcf_ids_in_assembly vcf_chromosomes assembly_chromosomes with
  | .notFound _failed_ids => .ok assembly_chromosomes
  | .allFound => .ok assembly_chromosomes

/-- `_validate_sample_ids` (lines 320-338): same advisory structure, over the
genotype ids and the sample-attribute instance keys (`raise` commented out,
line 335). -/
def validate_sample_ids (vcf_genotypes sample_ids : List String) :
    Except PyError (List String) :=
  match validate_vcf_to_sample vcf_genotypes sample_ids with
  | .notFound _failed_genos => .ok sample_ids
  | .allFound => .ok sample_ids

/-! ## VariationAssembler: `_construct_variation` (368-431),
`_save_var_obj` (433-471), `import_vcf` (473-493) -/

structure ShockHandle where
  hid : String
  remote_md5 : String
deriving DecidableEq, Repr

/-- The result dict of `dfu.file_to_shock`; `shock_id` is falsy (empty) when
the storage layer allocated no identifier. -/
structure ShockFileRef where
  shock_id : String
  handle : ShockHandle
deriving DecidableEq, Repr

/-- The terminal `KBaseGwasData.Variations` dict (lines 419-429). -/
structure VariationObj where
  numgenotypes : Nat
  numvariants : Nat
  contigs : List ContigInfo
  population : String
  genome_ref : String
  assemby_ref : String
  vcf_handle_ref : String
deriving DecidableEq, Repr

/-- `_construct_variation` (lines 368-431) as a function of the locally
computed md5 of the original file and of the blob-storage upload result (the
staging copy, gzip and upload are external I/O; `assembly_ref` is the field
`_validate_assembly_ids` stored in `vcf_info`).  The checksum comparison and
the shock-id check happen before the terminal record is built. -/
def construct_variation (params : PyDict) (vcf_info : VcfInfo)
    (assembly_ref : String) (contigs_info : List ContigInfo)
    (local_md5 : String) (vcf_shock_file_ref : ShockFileRef) :
    Except PyError VariationObj :=
  if local_md5 ≠ vcf_shock_file_ref.handle.remote_md5 then
    .error .valueError
  else if vcf_shock_file_ref.shock_id = "" then
    .error .valueError
  else
    (dictGet params "sample_attribute_ref").bind fun population =>
    (dictGet params "genome_ref").bind fun genome_ref =>
    .ok { numgenotypes := vcf_info.genotype_ids.length
          numvariants := vcf_info.total_variants
          contigs := contigs_info
          population := population
          genome_ref := genome_ref
          assemby_ref := assembly_ref
          vcf_handle_ref := vcf_shock_file_ref.handle.hid }

/-- The object info `_save_var_obj` gets back from `dfu.save_objects`. -/
structure SavedObjInfo where
  obj : VariationObj
deriving DecidableEq, Repr

/-- `_save_var_obj` applied to the dict `_construct_variation` built: such a
dict is non-empty, hence truthy, so the save branch runs. -/
def save_var_obj (var : VariationObj) : SavedObjInfo :=
  { obj := var }

/-- The tail of `import_vcf` (lines 488-493): the workspace save runs only
after `_construct_variation` has returned a value. -/
def import_vcf_tail (cv : Except PyError VariationObj) :
    Except PyError (SavedObjInfo × VariationObj) :=
  cv.bind fun var => .ok (save_var_obj var, var)

/-! ## Helper lemmas about the aggregation loop -/

theorem hasKey_eq_mem (l : List (String × ContigInfo)) (c : String) :
    hasKey l c = true ↔ c ∈ contigKeys l := by
  simp [hasKey, contigKeys, List.any_eq_true, List.mem_map]

theorem contigKeys_processRecord (st : ParseState) (r : VcfRecord) :
    contigKeys (processRecord st r).contigs =
      if hasKey st.contigs r.CHROM then contigKeys st.contigs
      else contigKeys st.contigs ++ [r.CHROM] := by
  simp only [processRecord]
  by_cases h : hasKey st.contigs r.CHROM
  · simp only [h, Bool.not_true, Bool.false_eq_true, if_false, if_true, contigKeys,
      List.map_map]
    refine List.map_congr_left fun p _ => ?_
    by_cases hp : p.1 = r.CHROM <;> simp [hp]
  · simp only [h, Bool.not_false, if_true, Bool.false_eq_true, if_false, contigKeys,
      List.map_append, List.map_cons, List.map_nil]

theorem processRecord_nodupKeys (st : ParseState) (r : VcfRecord)
    (hnd : (contigKeys st.contigs).Nodup) :
    (contigKeys (processRecord st r).contigs).Nodup := by
  rw [contigKeys_processRecord]
  by_cases h : hasKey st.contigs r.CHROM
  · simpa [h] using hnd
  · have hmem : r.CHROM ∉ contigKeys st.contigs := by
      intro hc
      exact h ((hasKey_eq_mem _ _).mpr hc)
    simp [h, List.nodup_append, hnd, hmem]

theorem sumTotals_append (l1 l2 : List (String × ContigInfo)) :
    sumTotals (l1 ++ l2) = sumTotals l1 + sumTotals l2 := by
  simp [sumTotals]

theorem sumTotals_update (l : List (String × ContigInfo)) (c : String) (b : Bool)
    (hmem : c ∈ contigKeys l) (hnd : (contigKeys l).Nodup) :
    sumTotals (l.map fun p => if p.1 = c then (p.1, updContig b p.2) else p)
      = sumTotals l + 1 := by
  induction l with
  | nil => simp [contigKeys] at hmem
  | cons p l ih =>
    simp only [contigKeys, List.map_cons, List.nodup_cons] at hnd
    rw [List.map_cons]
    by_cases hp : p.1 = c
    · have hrest : (l.map fun q => if q.1 = c then (q.1, updContig b q.2) else q) = l := by
        conv_rhs => rw [← List.map_id l]
        refine List.map_congr_left fun q hq => ?_
        have hqc : q.1 ≠ c := by
          intro hqc
          apply hnd.1
          rw [hp, ← hqc]
          exact List.mem_map_of_mem Prod.fst hq
        simp [hqc]
      rw [hrest]
      simp only [hp, if_true, sumTotals, List.map_cons, List.sum_cons, updContig]
      omega
    · have hmem' : c ∈ contigKeys l := by
        simp only [contigKeys, List.map_cons, List.mem_cons] at hmem
        rcases hmem with h | h
        · exact absurd h.symm hp
        · exact h
      have hsum := ih hmem' hnd.2
      simp only [hp, if_false, sumTotals, List.map_cons, List.sum_cons] at *
      omega

theorem processRecord_sumTotals (st : ParseState) (r : VcfRecord)
    (hnd : (contigKeys st.contigs).Nodup) :
    sumTotals (processRecord st r).contigs = sumTotals st.contigs + 1 := by
  simp only [processRecord]
  by_cases h : hasKey st.contigs r.CHROM
  · simp only [h, Bool.not_true, Bool.false_eq_true, if_false]
    exact sumTotals_update st.contigs r.CHROM (filterFalsy r.FILTER)
      ((hasKey_eq_mem _ _).mp h) hnd
  · simp only [h, Bool.not_false, if_true]
    rw [sumTotals_append]
    simp [sumTotals]

theorem processRecord_totalvars (st : ParseState) (r : VcfRecord) :
    (processRecord st r).totalvars = st.totalvars + 1 := rfl

theorem hasKey_eq_false_iff (l : List (String × ContigInfo)) (c : String) :
    hasKey l c = false ↔ c ∉ contigKeys l := by
  rw [← hasKey_eq_mem]
  cases hasKey l c <;> simp

theorem vcfState_append (rs : List VcfRecord) (r : VcfRecord) :
    vcfState (rs ++ [r]) = processRecord (vcfState rs) r := by
  simp [vcfState, List.foldl_append]

theorem countTotal_append (c : String) (rs : List VcfRecord) (r : VcfRecord) :
    countTotal c (rs ++ [r]) = countTotal c rs + (if r.CHROM = c then 1 else 0) := by
  by_cases h : r.CHROM = c <;> simp [countTotal, List.filter_append, h]

theorem countPass_append (c : String) (rs : List VcfRecord) (r : VcfRecord) :
    countPass c (rs ++ [r]) = countPass c rs +
      (if r.CHROM = c then (if filterFalsy r.FILTER then 1 else 0) else 0) := by
  by_cases h1 : r.CHROM = c
  · by_cases h2 : filterFalsy r.FILTER <;> simp [countPass, List.filter_append, h1, h2]
  · simp [countPass, List.filter_append, h1]

theorem countPass_le_countTotal (c : String) (rs : List VcfRecord) :
    countPass c rs ≤ countTotal c rs := by
  induction rs with
  | nil => simp [countPass, countTotal]
  | cons r rs ih =>
    simp only [countPass, countTotal, List.filter_cons] at *
    by_cases h1 : r.CHROM = c
    · by_cases h2 : filterFalsy r.FILTER <;> simp [h1, h2] <;> omega
    · simpa [h1] using ih

/-- The per-entry characterization of the `contigs` mapping, together with the
fact that a contig absent from the mapping has no records so far. -/
theorem aggCharacterization (records : List VcfRecord) :
    (∀ p ∈ (vcfState records).contigs,
      p.2.contig_id = p.1 ∧
      p.2.totalvariants = countTotal p.1 records ∧
      p.2.passvariants = countPass p.1 records) ∧
    (∀ c, hasKey (vcfState records).contigs c = false → countTotal c records = 0) := by
  induction records using List.reverseRecOn with
  | nil =>
    refine ⟨?_, ?_⟩
    · intro p hp
      simp [vcfState] at hp
    · intro c _
      simp [countTotal]
  | append_singleton rs r ih =>
    rw [vcfState_append]
    refine ⟨?_, ?_⟩
    · intro p hp
      simp only [processRecord] at hp
      by_cases hk : hasKey (vcfState rs).contigs r.CHROM
      · simp only [hk, Bool.not_true, Bool.false_eq_true, if_false] at hp
        obtain ⟨q, hq, rfl⟩ := List.mem_map.mp hp
        obtain ⟨hid, htot, hpass⟩ := ih.1 q hq
        by_cases hqc : q.1 = r.CHROM
        · simp only [hqc, if_true]
          refine ⟨?_, ?_, ?_⟩
          · exact hid.trans hqc
          · rw [countTotal_append]
            simp [updContig, htot, hqc]
          · rw [countPass_append]
            by_cases hf : filterFalsy r.FILTER <;> simp [updContig, hpass, hqc, hf]
        · simp only [hqc, if_false]
          have hne : r.CHROM = q.1 ↔ False := by
            constructor
            · intro h; exact hqc h.symm
            · intro h; exact h.elim
          refine ⟨hid, ?_, ?_⟩
          · rw [countTotal_append]
            simp [htot, hne]
          · rw [countPass_append]
            simp [hpass, hne]
      · simp only [hk, Bool.not_false, if_true] at hp
        rcases List.mem_append.mp hp with hold | hnew
        · obtain ⟨hid, htot, hpass⟩ := ih.1 p hold
          have hpne : p.1 ≠ r.CHROM := by
            intro hpe
            apply hk
            rw [hasKey_eq_mem, ← hpe]
            exact List.mem_map_of_mem Prod.fst hold
          have hne : r.CHROM = p.1 ↔ False := by
            constructor
            · intro h; exact hpne h.symm
            · intro h; exact h.elim
          refine ⟨hid, ?_, ?_⟩
          · rw [countTotal_append]
            simp [htot, hne]
          · rw [countPass_append]
            simp [hpass, hne]
        · have hkf : hasKey (vcfState rs).contigs r.CHROM = false := by
            cases h : hasKey (vcfState rs).contigs r.CHROM
            · rfl
            · exact absurd h hk
          have htot0 : countTotal r.CHROM rs = 0 := ih.2 r.CHROM hkf
          have hpass0 : countPass r.CHROM rs = 0 :=
            Nat.le_zero.mp (htot0 ▸ countPass_le_countTotal r.CHROM rs)
          simp only [List.mem_singleton] at hnew
          subst hnew
          refine ⟨rfl, ?_, ?_⟩
          · rw [countTotal_append]
            simp [htot0]
          · rw [countPass_append]
            by_cases hf : filterFalsy r.FILTER <;> simp [hpass0, hf]
    · intro c hc
      rw [hasKey_eq_false_iff, contigKeys_processRecord] at hc
      by_cases hk : hasKey (vcfState rs).contigs r.CHROM
      · rw [if_pos hk] at hc
        have hck : c ≠ r.CHROM := by
          intro hce
          exact hc (hce ▸ (hasKey_eq_mem _ _).mp hk)
        have h0 := ih.2 c ((hasKey_eq_false_iff _ _).mpr hc)
        have hrc : r.CHROM ≠ c := fun h => hck h.symm
        rw [countTotal_append, h0]
        simp [hrc]
      · rw [if_neg hk] at hc
        simp only [List.mem_append, List.mem_singleton, not_or] at hc
        have h0 := ih.2 c ((hasKey_eq_false_iff _ _).mpr hc.1)
        have hrc : r.CHROM ≠ c := fun h => hc.2 h.symm
        rw [countTotal_append, h0]
        simp [hrc]

theorem foldl_sum_invariant (rs : List VcfRecord) (st : ParseState)
    (hnd : (contigKeys st.contigs).Nodup) :
    (contigKeys (rs.foldl processRecord st).contigs).Nodup ∧
    sumTotals (rs.foldl processRecord st).contigs = sumTotals st.contigs + rs.length ∧
    (rs.foldl processRecord st).totalvars = st.totalvars + rs.length := by
  induction rs generalizing st with
  | nil => simpa using hnd
  | cons r rs ih =>
    have step := ih (processRecord st r) (processRecord_nodupKeys st r hnd)
    refine ⟨step.1, ?_, ?_⟩
    · rw [List.foldl_cons, step.2.1, processRecord_sumTotals st r hnd]
      simp [Nat.add_comm, Nat.add_assoc, Nat.add_left_comm]
    · rw [List.foldl_cons, step.2.2, processRecord_totalvars]
      simp [Nat.add_comm, Nat.add_assoc, Nat.add_left_comm]

/-! ## Claims -/

/-- C1 (counterexample): the assembly check is not case-insensitive.  The VCF
chromosome id `chr1` equals the assembly id `CHR1` after upper-casing and
stripping both sides, yet `_chk_if_vcf_ids_in_assembly` reports it as not
present, because that check uses plain (case-sensitive) membership. -/
theorem c1_counterexample :
    chk_if_vcf_ids_in_assembly ["chr1"] ["CHR1"] = .notFound ["chr1"] ∧
    pyNorm "chr1" = pyNorm "CHR1" := by
  decide

/-- C1 (amended): only the sample check (`_validate_vcf_to_sample`) compares
case-insensitively with whitespace trimmed on both sides — a genotype is
reported unresolved (as its normalised form) iff no sample id equals it after
upper-casing and stripping both sides.  The assembly check
(`_chk_if_vcf_ids_in_assembly`) compares identifiers verbatim — a chromosome
id is reported unresolved iff it is not literally an element of the assembly
id sequence. -/
theorem c1_amended (genos sids chroms achroms : List String) (x c : String) :
    (x ∈ genosNotFound genos sids ↔
      (∃ g ∈ genos, pyNorm g = x) ∧ ∀ s ∈ sids, pyNorm s ≠ x) ∧
    (c ∈ chromosNotInAssembly chroms achroms ↔ c ∈ chroms ∧ c ∉ achroms) := by
  constructor
  · simp [genosNotFound, List.mem_filter, List.mem_map, List.elem_iff]
  · simp [chromosNotInAssembly, List.mem_filter, List.elem_iff]

/-- C2: after `_parse_vcf_data` completes, the `totalvariants` counters of the
contigs mapping sum to `total_variants`. -/
theorem c2_sum_totalvariants (fileformat : String) (genotypes : List String)
    (records : List VcfRecord) (fp : String) (info : VcfInfo)
    (h : parse_vcf_data fileformat genotypes records fp = .ok info) :
    sumTotals info.contigs = info.total_variants := by
  rw [parse_vcf_data] at h
  cases hv : parse_vcf_data_version fileformat with
  | error e =>
    rw [hv] at h
    cases h
  | ok version =>
    rw [hv] at h
    injection h with h
    subst h
    obtain ⟨-, hsum, htot⟩ := foldl_sum_invariant records
      { chromosomes := [], contigs := [], totalvars := 0 } (by simp [contigKeys])
    simpa [vcfState, sumTotals] using hsum.trans htot.symm

theorem c2_witness :
    ∃ info, parse_vcf_data "VCFv4.2" [] [] "f" = Except.ok info ∧
      sumTotals info.contigs = info.total_variants := by
  have hv : parse_vcf_data_version "VCFv4.2" =
      Except.ok ((4 : ℚ) + (0 : ℚ) / (10 : ℚ) ^ 0) := pyFloat_eq_ok _ 4 0 0 (by decide)
  have h : parse_vcf_data "VCFv4.2" [] [] "f" = Except.ok
      { version := (4 : ℚ) + (0 : ℚ) / (10 : ℚ) ^ 0
        contigs := []
        total_variants := 0
        genotype_ids := []
        chromosome_ids := []
        file_ref := "f" } := by
    rw [parse_vcf_data, hv]
    rfl
  exact ⟨_, h, c2_sum_totalvariants "VCFv4.2" [] [] "f" _ h⟩

/-- C3: for every record stream (hence at every point of the aggregation,
since the state after consuming `k` records is the state for the prefix
`records.take k`), every entry of the contigs mapping has
`passvariants ≤ totalvariants`, and `passvariants` counts exactly the records
of that contig whose FILTER field is empty/unset (`totalvariants` counting all
records of that contig). -/
theorem c3_pass_le_total (records : List VcfRecord) :
    ∀ p ∈ (vcfState records).contigs,
      p.2.passvariants = countPass p.1 records ∧
      p.2.totalvariants = countTotal p.1 records ∧
      p.2.passvariants ≤ p.2.totalvariants := by
  intro p hp
  obtain ⟨-, htot, hpass⟩ := (aggCharacterization records).1 p hp
  refine ⟨hpass, htot, ?_⟩
  rw [hpass, htot]
  exact countPass_le_countTotal p.1 records

theorem c3_witness :
    ("1", ContigInfo.mk "1" 2 1 10) ∈
      (vcfState [VcfRecord.mk "1" none 0 10, VcfRecord.mk "1" (some ["q10"]) 3 7]).contigs ∧
    ((ContigInfo.mk "1" 2 1 10).passvariants =
        countPass "1" [VcfRecord.mk "1" none 0 10, VcfRecord.mk "1" (some ["q10"]) 3 7] ∧
      (ContigInfo.mk "1" 2 1 10).totalvariants =
        countTotal "1" [VcfRecord.mk "1" none 0 10, VcfRecord.mk "1" (some ["q10"]) 3 7] ∧
      (ContigInfo.mk "1" 2 1 10).passvariants ≤ (ContigInfo.mk "1" 2 1 10).totalvariants) :=
  ⟨by decide,
   c3_pass_le_total [VcfRecord.mk "1" none 0 10, VcfRecord.mk "1" (some ["q10"]) 3 7]
     ("1", ContigInfo.mk "1" 2 1 10) (by decide)⟩

/-- C4: the validator dispatch of `validate_vcf` partitions versions exactly
at 4.0 and 4.1 — `version ≥ 4.1` invokes `vcf_validator_linux`,
`4.0 ≤ version < 4.1` invokes `vcf-validator`, and `version < 4.0` raises a
`ValueError` before any validator command is built. -/
theorem c4_dispatch (v : ℚ) (p : String) :
    (41/10 ≤ v →
      validate_vcf_dispatch v p = .ok ["vcf_validator_linux", "-i", p, "-l", "error"]) ∧
    (4 ≤ v → v < 41/10 → validate_vcf_dispatch v p = .ok ["vcf-validator", p]) ∧
    (v < 4 → validate_vcf_dispatch v p = .error .valueError) := by
  refine ⟨?_, ?_, ?_⟩
  · intro h
    rw [validate_vcf_dispatch, if_pos (by exact h)]
  · intro h1 h2
    rw [validate_vcf_dispatch, if_neg (by exact not_le.mpr h2), if_pos (by exact h1)]
  · intro h
    rw [validate_vcf_dispatch, if_neg (by exact not_le.mpr (h.trans (by norm_num))),
      if_neg (by exact not_le.mpr h)]

theorem c4_witness :
    validate_vcf_dispatch (41/10) "a.vcf" =
      .ok ["vcf_validator_linux", "-i", "a.vcf", "-l", "error"] ∧
    validate_vcf_dispatch 4 "a.vcf" = .ok ["vcf-validator", "a.vcf"] ∧
    validate_vcf_dispatch (39/10) "a.vcf" = .error .valueError :=
  ⟨(c4_dispatch (41/10) "a.vcf").1 (by norm_num),
   (c4_dispatch 4 "a.vcf").2.1 (by norm_num) (by norm_num),
   (c4_dispatch (39/10) "a.vcf").2.2 (by norm_num)⟩

/-- C5 (code bug): for a file declaring `VCFv4.2`, `_get_vcf_version` returns
4.2, but `_parse_vcf_data` records `float('VCFv4.2'[4:6]) = float('4.') = 4.0`
in `VcfInfo.version` — the slice `[4:6]` drops the minor version digit, so the
recorded version does not equal the declared decimal version. -/
theorem c5_version_truncated :
    fileformatMetaValue "##fileformat=VCFv4.2\n" = "VCFv4.2" ∧
    parse_vcf_data_version "VCFv4.2" = .ok 4 ∧
    get_vcf_version "##fileformat=VCFv4.2\n" = .ok (21/5) ∧
    (4 : ℚ) ≠ 21/5 := by
  refine ⟨by decide, ?_, ?_, by norm_num⟩
  · rw [parse_vcf_data_version, pyFloat_eq_ok _ 4 0 0 (by decide)]
    norm_num
  · rw [get_vcf_version_eq_parse _ "VCFv4.2\n" (by decide) (by decide),
      pyFloat_eq_ok _ 4 2 1 (by decide)]
    norm_num

/-- C6 (counterexample): a first line consisting of `##fileformat` alone
(malformed: no `=` and no version) starts with the expected token, so the
guard does not fire, and `tokens[1]` raises `IndexError` — not the
`ValueError` the claim promises for every malformed first line. -/
theorem c6_counterexample :
    get_vcf_version "##fileformat" = .error .indexError ∧
    PyError.indexError ≠ PyError.valueError := by
  exact ⟨get_vcf_version_eq_indexError (by decide) (by decide), by decide⟩

/-- C6 (amended): `_get_vcf_version` raises `ValueError` when the text before
the first `=` does not start with `##fileformat`, and also (inside `float()`)
when the trailing version text is not a decimal literal; but when the line
starts with `##fileformat` and contains no `=` at all it raises `IndexError`
instead.  On remaining inputs it returns `float(tokens[1][-4:].rstrip())`. -/
theorem c6_amended (line : String) :
    (pyStartswith ((pySplit line '=').headD "") "##fileformat" = false →
      get_vcf_version line = .error .valueError) ∧
    (pyStartswith ((pySplit line '=').headD "") "##fileformat" = true →
      (pySplit line '=').get? 1 = none →
      get_vcf_version line = .error .indexError) ∧
    (∀ t1, pyStartswith ((pySplit line '=').headD "") "##fileformat" = true →
      (pySplit line '=').get? 1 = some t1 →
      get_vcf_version line = pyFloat (pyRstrip (pyTakeLast t1 4))) :=
  ⟨get_vcf_version_eq_valueError,
   get_vcf_version_eq_indexError,
   fun t1 h1 h2 => get_vcf_version_eq_parse line t1 h1 h2⟩

theorem c6_amended_witness :
    get_vcf_version "fileformat=VCFv4.2" = .error .valueError ∧
    get_vcf_version "##fileformat" = .error .indexError ∧
    get_vcf_version "##fileformat=VCFv4.3\n" = pyFloat (pyRstrip (pyTakeLast "VCFv4.3\n" 4)) :=
  ⟨(c6_amended "fileformat=VCFv4.2").1 (by decide),
   (c6_amended "##fileformat").2.1 (by decide) (by decide),
   (c6_amended "##fileformat=VCFv4.3\n").2.2 "VCFv4.3\n" (by decide) (by decide)⟩

/-- C7 (counterexample): captured validator output that is non-empty but
contains no `[info]`-marked line leaves `validator_output` empty, so
`validator_output[0]` raises `IndexError` and the handler — seeing the empty
retained list, the raw output having been discarded — writes the synthesized
success report and returns its path without raising, instead of failing with
the output as the error detail as the claim states. -/
theorem c7_counterexample :
    interpretValidatorOutput (fun _ => false) ["ERROR: invalid vcf file"] = .okSynth ∧
    retainedLines ["ERROR: invalid vcf file"] = [] ∧
    ["ERROR: invalid vcf file"] ≠ ([] : List String) ∧
    VOutcome.okSynth ≠ .errWithLines ["ERROR: invalid vcf file"] true := by
  decide

/-- C7 (amended): the interpretation depends only on the retained
`[info]`-marked lines.  When no line was retained — even if the raw captured
output was non-empty — the synthesized success report is written and its path
returned without error; the raw-lines-to-fallback failure occurs when lines
were retained but the first does not begin with `[info]` at position 0, in
which case the retained (not the raw) lines are written and raised. -/
theorem c7_amended (fileExists : String → Bool) (raw : List String) :
    (retainedLines raw = [] →
      interpretValidatorOutput fileExists raw = .okSynth) ∧
    (∀ l0 rest, retainedLines raw = l0 :: rest → pySlice l0 0 6 ≠ "[info]" →
      interpretValidatorOutput fileExists raw = .errWithLines (l0 :: rest) true) := by
  constructor
  · intro h
    simp only [interpretValidatorOutput, h]
    rfl
  · intro l0 rest h hne
    simp only [interpretValidatorOutput, h, List.get?]
    rw [if_neg hne]
    rfl

theorem c7_amended_witness :
    interpretValidatorOutput (fun _ => false) ["banner text"] = .okSynth ∧
    interpretValidatorOutput (fun _ => false) ["  [info] shifted"] =
      .errWithLines ["  [info] shifted"] true :=
  ⟨(c7_amended (fun _ => false) ["banner text"]).1 (by decide),
   (c7_amended (fun _ => false) ["  [info] shifted"]).2 "  [info] shifted" []
     (by decide) (by decide)⟩

/-- C8: when the local md5 differs from the storage-reported checksum, or the
storage layer returned no identifier, `_construct_variation` raises a
`ValueError` before the terminal record is assembled, and the `import_vcf`
tail — which saves only after `_construct_variation` returns — propagates the
error, so nothing is saved. -/
theorem c8_checksum_guard (params : PyDict) (vcf_info : VcfInfo)
    (assembly_ref : String) (contigs_info : List ContigInfo)
    (local_md5 : String) (sr : ShockFileRef)
    (h : local_md5 ≠ sr.handle.remote_md5 ∨ sr.shock_id = "") :
    construct_variation params vcf_info assembly_ref contigs_info local_md5 sr =
      .error .valueError ∧
    import_vcf_tail
      (construct_variation params vcf_info assembly_ref contigs_info local_md5 sr) =
      .error .valueError := by
  have hc : construct_variation params vcf_info assembly_ref contigs_info local_md5 sr =
      .error .valueError := by
    rcases h with h | h
    · rw [construct_variation, if_pos h]
    · by_cases hm : local_md5 ≠ sr.handle.remote_md5
      · rw [construct_variation, if_pos hm]
      · rw [construct_variation, if_neg hm, if_pos h]
  refine ⟨hc, ?_⟩
  rw [import_vcf_tail, hc]
  rfl

theorem c8_witness :
    construct_variation [] (VcfInfo.mk 0 [] 0 [] [] "") "" [] "aaa"
      (ShockFileRef.mk "id1" (ShockHandle.mk "h1" "bbb")) = .error .valueError ∧
    import_vcf_tail (construct_variation [] (VcfInfo.mk 0 [] 0 [] [] "") "" [] "aaa"
      (ShockFileRef.mk "id1" (ShockHandle.mk "h1" "bbb"))) = .error .valueError :=
  c8_checksum_guard [] (VcfInfo.mk 0 [] 0 [] [] "") "" [] "aaa"
    (ShockFileRef.mk "id1" (ShockHandle.mk "h1" "bbb")) (Or.inl (by decide))

/-- C9: the assembly-id and sample-id checks are advisory — for every input
they return the reference id set without raising, whether or not unresolved
identifiers exist (the `raise ValueError` lines are commented out; unresolved
ids are only printed). -/
theorem c9_advisory (vcf_chromosomes assembly_chromosomes
    vcf_genotypes sample_ids : List String) :
    validate_assembly_ids vcf_chromosomes assembly_chromosomes =
      .ok assembly_chromosomes ∧
    validate_sample_ids vcf_genotypes sample_ids = .ok sample_ids := by
  constructor
  · rw [validate_assembly_ids]
    cases chk_if_vcf_ids_in_assembly vcf_chromosomes assembly_chromosomes <;> rfl
  · rw [validate_sample_ids]
    cases validate_vcf_to_sample vcf_genotypes sample_ids <;> rfl

/-- C10 (code bug): when `genome_ref` (or `vcf_staging_file_path`) is missing,
the guard of `validate_vcf` evaluates `'...: \n\n' + params` to build the
`ValueError` message; `params` is a dict, and `str + dict` raises `TypeError`
first — so the claimed `ValueError` with the concatenated message is never
raised. -/
theorem c10_param_guard_typeerror :
    validate_vcf_param_guard [] = .error .typeError ∧
    validate_vcf_param_guard [("genome_ref", "1/2/3")] = .error .typeError ∧
    PyError.typeError ≠ PyError.valueError := by
  decide

end VCFToVariation
